import Mathlib

/-!
# Verification of the `ReactGoogleReviews` component core

Shallow embedding of `src/components/ReactGoogleReviews/ReactGoogleReviews.tsx`:
the configuration validation, the mount/effect/fetch lifecycle, the render
dispatcher and the structured-data serializer. JavaScript numbers that may be
fractional (`totalReviewCount`, `averageRating`) are modelled as `ℚ`;
`Number.isInteger q` is `q.den = 1`. React semantics that the component relies
on are made explicit: state initializers run once at mount, the effect runs
after the first committed render and re-runs exactly when its dependency array
entry (`props.featurableId`) changes, and a fetch continuation applies its
`setState` calls whenever it is delivered.
-/

namespace ReactGoogleReviews

/-- Reviewer identity, from the review record shape (`types/review` is imported
by the component; shape as consumed by the component and the spec §6). -/
structure Reviewer where
  displayName : String
  isAnonymous : Bool
deriving DecidableEq, Repr

/-- A Google review as consumed by the component: `reviewer`, free-text
`comment`, `createTime` timestamp string, integer `starRating`. -/
structure GoogleReview where
  reviewer : Reviewer
  comment : String
  createTime : String
  starRating : Nat
deriving DecidableEq, Repr

/-- Layout discriminant of the configuration. -/
inductive Layout where
  | carousel
  | badge
  | custom
deriving DecidableEq, Repr

/-- The component's props, flattened from the discriminated union
`ReactGoogleReviewsProps`. Optional fields are `Option`; `reviews = some R`
is supplied mode, `featurableId = some id` is remote mode. The custom-layout
`renderer` callback is modelled by the `customView` render branch carrying the
exact review list the callback would receive. -/
structure Props where
  layout : Layout
  reviews : Option (List GoogleReview)
  featurableId : Option String
  profileUrl : Option String
  totalReviewCount : Option ℚ
  averageRating : Option ℚ
  structuredData : Bool
  productName : Option String
  brandName : Option String
  productDescription : Option String
deriving DecidableEq, Repr

/-- `true` when `props.totalReviewCount != null && (props.totalReviewCount < 0
|| !Number.isInteger(props.totalReviewCount))` (source lines 204-208). -/
def invalidTotalReviewCount (p : Props) : Bool :=
  match p.totalReviewCount with
  | some c => decide (c < 0) || decide (c.den ≠ 1)
  | none => false

/-- `true` when `props.averageRating != null && (props.averageRating < 1 ||
props.averageRating > 5)` (source lines 213-216). -/
def invalidAverageRating (p : Props) : Bool :=
  match p.averageRating with
  | some a => decide (a < 1) || decide (5 < a)
  | none => false

/-- The synchronous validation at the top of the component body (source lines
204-218): the two `throw new Error(...)` statements, in source order, before
any hook runs. A thrown error is `Except.error`. -/
def validateConfig (p : Props) : Except String Unit :=
  if invalidTotalReviewCount p then
    Except.error "totalReviewCount must be a positive integer"
  else if invalidAverageRating p then
    Except.error "averageRating must be between 1 and 5"
  else
    Except.ok ()

/-- The component's `useState` cells (source lines 220-233). -/
structure ComponentState where
  reviews : List GoogleReview
  loading : Bool
  error : Bool
  profileUrl : Option String
  totalReviewCount : Option ℚ
  averageRating : Option ℚ
deriving DecidableEq, Repr

/-- The `useState` initializers (source lines 220-233): `reviews` from
`props.reviews ?? []`, `loading` starts `true`, `error` starts `false`,
`profileUrl` from `props.layout === "badge" ? props.profileUrl ?? null : null`,
the two aggregates from the props or `null`. -/
def initState (p : Props) : ComponentState where
  reviews := p.reviews.getD []
  loading := true
  error := false
  profileUrl := if p.layout = Layout.badge then p.profileUrl else none
  totalReviewCount := p.totalReviewCount
  averageRating := p.averageRating

/-- The parsed JSON body of the Featurable API response
(`FeaturableAPIResponse`); fields other than `success` are `Option` because a
JSON body may omit them (spec §6, §8). -/
structure FeaturableAPIResponse where
  success : Bool
  reviews : List GoogleReview
  profileUrl : Option String
  totalReviewCount : Option ℚ
  averageRating : Option ℚ
deriving DecidableEq, Repr

/-- Outcome of one `fetch(...).then(res => res.json())` chain: `rejected`
covers a transport error or a body that fails to parse (both land in the
`.catch`), `resolved` a parsed body. -/
inductive FetchOutcome where
  | rejected
  | resolved (data : FeaturableAPIResponse)
deriving DecidableEq, Repr

/-- The fetch continuation (source lines 243-257): on a parsed body with
`success` false set `error` and return; on success overwrite the four data
cells; on rejection set `error`; in all cases `finally` clears `loading`. -/
def applyFetchOutcome (s : ComponentState) (o : FetchOutcome) : ComponentState :=
  match o with
  | FetchOutcome.rejected => { s with error := true, loading := false }
  | FetchOutcome.resolved data =>
    if !data.success then
      { s with error := true, loading := false }
    else
      { s with
          reviews := data.reviews
          profileUrl := data.profileUrl
          totalReviewCount := data.totalReviewCount
          averageRating := data.averageRating
          loading := false }

/-- One mounted instance together with the React bookkeeping the component
relies on: `lastDep` is the dependency-array entry of the last effect run
(`none` before the first run), `inflight` the featurable ids of issued fetches
whose continuations have not yet been delivered, `fetchCount` the total number
of fetches issued. -/
structure MountedInstance where
  props : Props
  comp : ComponentState
  lastDep : Option (Option String)
  inflight : List String
  fetchCount : Nat
deriving DecidableEq, Repr

/-- The body of the `useEffect` (source lines 235-261): `if (props.featurableId)`
— JavaScript truthiness, so the empty string counts as absent — issue one GET
and leave `loading` for the continuation's `finally`; otherwise
`setLoading(false)`. -/
def runEffectStep (inst : MountedInstance) : MountedInstance :=
  match inst.props.featurableId with
  | some fid =>
    if fid ≠ "" then
      { inst with
          inflight := inst.inflight ++ [fid]
          fetchCount := inst.fetchCount + 1 }
    else
      { inst with comp := { inst.comp with loading := false } }
  | none => { inst with comp := { inst.comp with loading := false } }

/-- A committed render with (possibly new) props, followed by React's effect
phase: the effect re-runs exactly when the dependency array
`[props.featurableId]` differs from the previous run (source line 261). -/
def commit (inst : MountedInstance) (newProps : Props) : MountedInstance :=
  let moved := { inst with props := newProps }
  if moved.lastDep = some newProps.featurableId then
    moved
  else
    runEffectStep { moved with lastDep := some newProps.featurableId }

/-- A fresh mount: state initializers run, the first render commits, the
effect runs for the first time. -/
def mount (p : Props) : MountedInstance :=
  commit
    { props := p
      comp := initState p
      lastDep := none
      inflight := []
      fetchCount := 0 }
    p

/-- Delivery of the continuation of the `i`-th in-flight fetch. The source
chains `.then/.catch/.finally` with no cancellation token or staleness guard,
so the continuation applies its state writes unconditionally whenever it
arrives. -/
def deliver (inst : MountedInstance) (i : Nat) (o : FetchOutcome) : MountedInstance :=
  match inst.inflight.get? i with
  | some _ =>
    { inst with
        comp := applyFetchOutcome inst.comp o
        inflight := inst.inflight.eraseIdx i }
  | none => inst

/-- The mount entry point: the synchronous validation runs before any hook and
a thrown error propagates to the hosting context instead of producing an
instance. -/
def mountComponent (p : Props) : Except String MountedInstance :=
  match validateConfig p with
  | Except.error e => Except.error e
  | Except.ok _ => Except.ok (mount p)

/-- The ambient page reads (`document.title`, `document.location.href`) used
as structured-data fallbacks, abstracted as an injected page context
(spec §9). -/
structure PageContext where
  title : String
  url : String
deriving DecidableEq, Repr

/-- The review list embedded in the structured-data document (source lines
298-300): `reviews.filter((r) => !!r.reviewer.isAnonymous).slice(0, 10)`. The
filter keeps exactly the reviews whose `isAnonymous` flag is set. -/
def structuredDataReviews (reviews : List GoogleReview) : List GoogleReview :=
  (reviews.filter fun r => r.reviewer.isAnonymous).take 10

/-- One per-review entry of the structured-data document (source lines
302-308): the template literal interpolates `review.comment`,
`review.createTime`, `review.reviewer.displayName` and `review.starRating`
directly, with no escaping. -/
def reviewToJson (review : GoogleReview) : String :=
  "\x7b\n            \"@type\": \"Review\",\n            \"reviewBody\": \""
    ++ review.comment
    ++ "\",\n            \"datePublished\": \""
    ++ review.createTime
    ++ "\",\n            \"author\": \x7b \"@type\": \"Person\", \"name\": \""
    ++ review.reviewer.displayName
    ++ "\" \x7d,\n            \"reviewRating\": \x7b \"@type\": \"Rating\", \"ratingValue\": "
    ++ toString review.starRating
    ++ " \x7d\n        \x7d"

/-- The full structured-data document (source lines 281-311). A JavaScript
array interpolated into a template literal is joined with commas, hence
`String.intercalate ","` over the mapped review entries. -/
def structuredDataJson (p : Props) (reviews : List GoogleReview)
    (averageRating totalReviewCount : ℚ) (page : PageContext) : String :=
  "\x7b\n    \"@context\": \"https://schema.org\",\n    \"@type\": \"Product\",\n    \"name\": \""
    ++ (p.productName.getD page.title)
    ++ "\",\n    \"url\": \""
    ++ page.url
    ++ "\",\n    \"brand\": \x7b \"@type\": \"Brand\", \"name\": \""
    ++ (p.brandName.getD page.title)
    ++ "\" \x7d,\n    \"description\": \""
    ++ (p.productDescription.getD "")
    ++ "\",\n    \"image\": [],\n    \"aggregateRating\": \x7b\n        \"@type\": \"AggregateRating\",\n        \"ratingValue\": "
    ++ toString averageRating
    ++ ",\n        \"reviewCount\": "
    ++ toString totalReviewCount
    ++ ",\n        \"bestRating\": 5,\n        \"worstRating\": 1\n    \x7d,\n    \"review\": ["
    ++ String.intercalate "," ((structuredDataReviews reviews).map reviewToJson)
    ++ "]\n\x7d\n"

/-- The structured-data block of a render (source lines 277-313): emitted only
when `props.structuredData && averageRating !== null && totalReviewCount !==
null`. -/
def structuredDataBlock (p : Props) (s : ComponentState) (page : PageContext) :
    Option String :=
  if p.structuredData then
    match s.averageRating, s.totalReviewCount with
    | some a, some c => some (structuredDataJson p s.reviews a c page)
    | _, _ => none
  else
    none

/-- The layout views a render can dispatch to. `carouselView` and `customView`
carry the review list handed to the `Carousel` component and the `renderer`
callback respectively; `badgeView` carries the three values handed to
`Badge`. -/
inductive LayoutBranch where
  | carouselView (reviews : List GoogleReview)
  | badgeView (averageRating totalReviewCount : Option ℚ) (profileUrl : Option String)
  | customView (reviews : List GoogleReview)
deriving DecidableEq, Repr

/-- The exclusive layout dispatch on `props.layout` (source lines 315-341). -/
def layoutBranch (p : Props) (s : ComponentState) : LayoutBranch :=
  match p.layout with
  | Layout.carousel => LayoutBranch.carouselView s.reviews
  | Layout.badge =>
      LayoutBranch.badgeView s.averageRating s.totalReviewCount s.profileUrl
  | Layout.custom => LayoutBranch.customView s.reviews

/-- The three possible outputs of one render: `LoadingState`, `ErrorState`, or
the parent div holding the optional structured-data script plus exactly one
layout view. -/
inductive RenderOutput where
  | loadingPlaceholder
  | errorPlaceholder
  | layoutOutput (sdata : Option String) (branch : LayoutBranch)
deriving DecidableEq, Repr

/-- The render body (source lines 263-342): `loading` short-circuits to
`LoadingState`; then `error ||` the badge aggregate guard short-circuits to
`ErrorState`; otherwise the structured-data block plus the layout dispatch. -/
def render (p : Props) (s : ComponentState) (page : PageContext) : RenderOutput :=
  if s.loading then
    RenderOutput.loadingPlaceholder
  else if s.error = true ∨
      (p.layout = Layout.badge ∧
        (s.averageRating = none ∨ s.totalReviewCount = none)) then
    RenderOutput.errorPlaceholder
  else
    RenderOutput.layoutOutput (structuredDataBlock p s page) (layoutBranch p s)

/-- Scans the body of a JSON string literal, starting just after the opening
quote: an unescaped quote closes the literal, a backslash consumes the next
character as part of an escape sequence. Returns the scanned body and the
remaining input after the closing quote, or `none` when the literal never
closes. -/
def scanJsonString : List Char → Option (List Char × List Char)
  | [] => none
  | '"' :: rest => some ([], rest)
  | '\\' :: [] => none
  | '\\' :: e :: rest =>
    (scanJsonString rest).map fun q => ('\\' :: e :: q.1, q.2)
  | c :: rest =>
    (scanJsonString rest).map fun q => (c :: q.1, q.2)

/-- `dropExact pre s` strips the exact sequence `pre` off the front of `s`. -/
def dropExact : List Char → List Char → Option (List Char)
  | [], s => some s
  | _ :: _, [] => none
  | a :: pre, c :: s => if a = c then dropExact pre s else none

/-- The fixed document text of a per-review entry up to and including the
opening quote of the `reviewBody` value. -/
def reviewBodyMarker : String :=
  "\x7b\n            \"@type\": \"Review\",\n            \"reviewBody\": \""

/-- What a JSON consumer reads back as the `reviewBody` value of a per-review
entry: strip the fixed text up to the value's opening quote, then lex the
string literal to its closing quote. -/
def decodedReviewBody (doc : String) : Option String :=
  match dropExact reviewBodyMarker.data doc.data with
  | none => none
  | some rest =>
    match scanJsonString rest with
    | none => none
    | some (body, _) => some (String.mk body)

/-! Concrete inputs used to instantiate the theorems below. -/

/-- A review by a named (non-anonymous) reviewer. -/
def rNamed : GoogleReview :=
  { reviewer := { displayName := "Jane Doe", isAnonymous := false }
    comment := "great"
    createTime := "2024-01-02T00:00:00Z"
    starRating := 5 }

/-- A review by an anonymous reviewer. -/
def rAnon : GoogleReview :=
  { reviewer := { displayName := "A Google user", isAnonymous := true }
    comment := "ok"
    createTime := "2024-01-03T00:00:00Z"
    starRating := 3 }

/-- A review whose comment contains double quotes. -/
def rQuote : GoogleReview :=
  { reviewer := { displayName := "Bob", isAnonymous := true }
    comment := "say \"hi\" now"
    createTime := "2024-01-04T00:00:00Z"
    starRating := 4 }

/-- A concrete page context. -/
def pg : PageContext := { title := "My Shop", url := "https://example.com/" }

/-- A supplied-mode configuration (`reviews` present, no `featurableId`). -/
def pSup : Props :=
  { layout := Layout.carousel
    reviews := some [rNamed, rAnon]
    featurableId := none
    profileUrl := none
    totalReviewCount := none
    averageRating := none
    structuredData := false
    productName := none
    brandName := none
    productDescription := none }

/-- A remote-mode configuration fetching widget id `"A"`. -/
def pRem : Props :=
  { layout := Layout.carousel
    reviews := none
    featurableId := some "A"
    profileUrl := none
    totalReviewCount := none
    averageRating := none
    structuredData := false
    productName := none
    brandName := none
    productDescription := none }

/-- The same instance reconfigured to widget id `"B"`. -/
def pRemB : Props := { pRem with featurableId := some "B" }

/-- A remote-mode badge configuration with configuration-supplied aggregates. -/
def pRemAgg : Props :=
  { layout := Layout.badge
    reviews := none
    featurableId := some "C"
    profileUrl := some "https://g.page/x"
    totalReviewCount := some 7
    averageRating := some 4
    structuredData := false
    productName := none
    brandName := none
    productDescription := none }

/-- A configuration with a negative `totalReviewCount`. -/
def pBadTotal : Props :=
  { pSup with totalReviewCount := some (-1), averageRating := some 4 }

/-- A successful response body for widget `"A"`. -/
def dStale : FeaturableAPIResponse :=
  { success := true
    reviews := [rAnon]
    profileUrl := some "https://g.page/a"
    totalReviewCount := some 12
    averageRating := some (9 / 2) }

/-- A successful response body that omits `averageRating`. -/
def dNoAvg : FeaturableAPIResponse :=
  { success := true
    reviews := [rNamed]
    profileUrl := some "https://g.page/b"
    totalReviewCount := some 12
    averageRating := none }

/-- A post-acquisition state of a badge instance with a missing aggregate. -/
def sBadgeNoAvg : ComponentState :=
  { reviews := [rNamed]
    loading := false
    error := false
    profileUrl := some "https://g.page/b"
    totalReviewCount := some 12
    averageRating := none }

/-! ## Helper lemmas -/

/-- `invalidTotalReviewCount` holds iff a `totalReviewCount` is supplied and is
negative or non-integer. -/
theorem invalidTotalReviewCount_iff (p : Props) :
    invalidTotalReviewCount p = true ↔
      ∃ c, p.totalReviewCount = some c ∧ (c < 0 ∨ c.den ≠ 1) := by
  unfold invalidTotalReviewCount
  cases h : p.totalReviewCount <;> simp [h]

/-- `invalidAverageRating` holds iff an `averageRating` is supplied and lies
outside `[1, 5]`. -/
theorem invalidAverageRating_iff (p : Props) :
    invalidAverageRating p = true ↔
      ∃ a, p.averageRating = some a ∧ (a < 1 ∨ 5 < a) := by
  unfold invalidAverageRating
  cases h : p.averageRating <;> simp [h]

/-- Mounting throws exactly when one of the two validation predicates fires. -/
theorem mountComponent_error_iff (p : Props) :
    (∃ e, mountComponent p = Except.error e) ↔
      (invalidTotalReviewCount p || invalidAverageRating p) = true := by
  unfold mountComponent validateConfig
  cases h1 : invalidTotalReviewCount p <;> cases h2 : invalidAverageRating p <;>
    simp [h1, h2]

/-! ## Claim theorems -/

/-- C1 (amended): for every supplied-mode configuration (`reviews = R`
present, no `featurableId`), the first committed render is the loading
placeholder — `loading` is initialized `true` in every mode — and the mount
effect then reaches Ready without issuing any fetch, with the review sequence
exactly `R`. -/
theorem C1_supplied_mode_ready_after_effect (p : Props) (R : List GoogleReview)
    (page : PageContext) (hfid : p.featurableId = none)
    (hrev : p.reviews = some R) :
    render p (initState p) page = RenderOutput.loadingPlaceholder ∧
    (mount p).comp.loading = false ∧ (mount p).comp.error = false ∧
    (mount p).comp.reviews = R ∧ (mount p).fetchCount = 0 := by
  refine ⟨by simp [render, initState], ?_⟩
  simp [mount, commit, runEffectStep, initState, hfid, hrev]

/-- C1 witness: the amended statement instantiated at the concrete
supplied-mode configuration `pSup`. -/
theorem C1_supplied_mode_ready_after_effect_witness :
    render pSup (initState pSup) pg = RenderOutput.loadingPlaceholder ∧
    (mount pSup).comp.loading = false ∧ (mount pSup).comp.error = false ∧
    (mount pSup).comp.reviews = [rNamed, rAnon] ∧ (mount pSup).fetchCount = 0 :=
  C1_supplied_mode_ready_after_effect pSup [rNamed, rAnon] pg rfl rfl

/-- C1 counterexample: the claim as stated is false — a supplied-mode mount is
not synchronously Ready; its `loading` cell is initialized `true` and the
first committed render (before the effect phase) is the loading placeholder,
so an intervening Loading render does occur. -/
theorem C1_counterexample_intervening_loading_render :
    pSup.featurableId = none ∧ pSup.reviews = some [rNamed, rAnon] ∧
    (initState pSup).loading = true ∧
    render pSup (initState pSup) pg = RenderOutput.loadingPlaceholder :=
  ⟨rfl, rfl, rfl, rfl⟩

/-- C2 (code evaluation at the failing input): the serializer interpolates the
comment with no escaping, so for the review `rQuote`, whose comment is
`say "hi" now`, a JSON consumer lexing the produced per-review entry reads the
`reviewBody` value back as `say ` — the first unescaped quote of the comment
terminates the enclosing value early, and the decoded value differs from the
comment. -/
theorem C2_unescaped_quote_truncates_review_body :
    rQuote.comment = "say \"hi\" now" ∧
    decodedReviewBody (reviewToJson rQuote) = some "say " ∧
    decodedReviewBody (reviewToJson rQuote) ≠ some rQuote.comment := by
  decide

/-- C3: for every remote-mode configuration, a delivered response that parses
and has `success` true moves the instance from Loading (the state in which it
mounted) to Ready, overwriting all four data cells with exactly the response
body's values — a full overwrite independent of any configuration-supplied
values. -/
theorem C3_remote_success_full_overwrite (p : Props) (fid : String)
    (d : FeaturableAPIResponse) (hfid : p.featurableId = some fid)
    (hne : fid ≠ "") (hsucc : d.success = true) :
    (mount p).comp.loading = true ∧
    (deliver (mount p) 0 (FetchOutcome.resolved d)).comp =
      { reviews := d.reviews
        loading := false
        error := false
        profileUrl := d.profileUrl
        totalReviewCount := d.totalReviewCount
        averageRating := d.averageRating } := by
  simp [mount, commit, runEffectStep, initState, deliver, applyFetchOutcome,
    hfid, hne, hsucc]

/-- C3 witness: the theorem instantiated at the remote configuration `pRem`
and the successful response `dStale`. -/
theorem C3_remote_success_full_overwrite_witness :
    (mount pRem).comp.loading = true ∧
    (deliver (mount pRem) 0 (FetchOutcome.resolved dStale)).comp =
      { reviews := dStale.reviews
        loading := false
        error := false
        profileUrl := dStale.profileUrl
        totalReviewCount := dStale.totalReviewCount
        averageRating := dStale.averageRating } :=
  C3_remote_success_full_overwrite pRem "A" dStale rfl (by decide) rfl

/-- C4: for every remote-mode configuration, if the fetch chain rejects
(transport error or unparsable body) or the parsed body carries
`success: false`, the instance moves from Loading to Error — the failure is
absorbed by the `.catch`/early-return into the `error` cell, never thrown —
and the next render is the error placeholder. -/
theorem C4_remote_failure_error_placeholder (p : Props) (fid : String)
    (o : FetchOutcome) (page : PageContext) (hfid : p.featurableId = some fid)
    (hne : fid ≠ "")
    (hfail : o = FetchOutcome.rejected ∨
      ∃ d, o = FetchOutcome.resolved d ∧ d.success = false) :
    (mount p).comp.loading = true ∧
    (deliver (mount p) 0 o).comp.loading = false ∧
    (deliver (mount p) 0 o).comp.error = true ∧
    render p (deliver (mount p) 0 o).comp page = RenderOutput.errorPlaceholder := by
  rcases hfail with h | ⟨d, hd, hds⟩
  · subst h
    simp [mount, commit, runEffectStep, initState, deliver, applyFetchOutcome,
      render, hfid, hne]
  · subst hd
    simp [mount, commit, runEffectStep, initState, deliver, applyFetchOutcome,
      render, hfid, hne, hds]

/-- C4 witness: the theorem instantiated at `pRem` with a rejected fetch. -/
theorem C4_remote_failure_error_placeholder_witness :
    (mount pRem).comp.loading = true ∧
    (deliver (mount pRem) 0 FetchOutcome.rejected).comp.loading = false ∧
    (deliver (mount pRem) 0 FetchOutcome.rejected).comp.error = true ∧
    render pRem (deliver (mount pRem) 0 FetchOutcome.rejected).comp pg =
      RenderOutput.errorPlaceholder :=
  C4_remote_failure_error_placeholder pRem "A" FetchOutcome.rejected pg rfl
    (by decide) (Or.inl rfl)

/-- C5: mounting fails with a thrown error — propagated to the hosting
context, before any state cell or lifecycle state exists — exactly when a
supplied `totalReviewCount` is negative or non-integer, or a supplied
`averageRating` lies outside the inclusive range `[1, 5]`. -/
theorem C5_invalid_parameter_iff (p : Props) :
    (∃ e, mountComponent p = Except.error e) ↔
      ((∃ c, p.totalReviewCount = some c ∧ (c < 0 ∨ c.den ≠ 1)) ∨
       (∃ a, p.averageRating = some a ∧ (a < 1 ∨ 5 < a))) := by
  rw [mountComponent_error_iff, Bool.or_eq_true, invalidTotalReviewCount_iff,
    invalidAverageRating_iff]

/-- C5 witness: the theorem applied at the configuration `pBadTotal`, whose
`totalReviewCount` is `-1`: mounting throws. -/
theorem C5_invalid_parameter_iff_witness :
    ∃ e, mountComponent pBadTotal = Except.error e :=
  (C5_invalid_parameter_iff pBadTotal).mpr
    (Or.inl ⟨-1, rfl, Or.inl (by norm_num)⟩)

/-- C6: in any state that has completed acquisition (`loading` false, `error`
false — i.e. Ready), a badge-layout configuration whose `averageRating` or
`totalReviewCount` cell is still null renders the error placeholder, exactly
as an acquisition failure would, never the badge. -/
theorem C6_badge_missing_aggregate_error (p : Props) (s : ComponentState)
    (page : PageContext) (hlay : p.layout = Layout.badge)
    (hload : s.loading = false) (herr : s.error = false)
    (hnull : s.averageRating = none ∨ s.totalReviewCount = none) :
    render p s page = RenderOutput.errorPlaceholder := by
  rcases hnull with h | h <;> simp [render, hlay, hload, herr, h]

/-- C6 witness: the badge configuration `pRemAgg` after a successful fetch
whose body omits `averageRating` (response `dNoAvg`): the render is the error
placeholder. -/
theorem C6_badge_missing_aggregate_error_witness :
    render pRemAgg
      (deliver (mount pRemAgg) 0 (FetchOutcome.resolved dNoAvg)).comp pg =
      RenderOutput.errorPlaceholder :=
  C6_badge_missing_aggregate_error pRemAgg
    (deliver (mount pRemAgg) 0 (FetchOutcome.resolved dNoAvg)).comp pg rfl rfl
    rfl (Or.inl rfl)

/-- C7: the render dispatcher's fixed precedence — `loading` short-circuits to
the loading placeholder regardless of configuration; otherwise `error` or the
badge aggregate guard short-circuits to the error placeholder; otherwise the
output is the structured-data block together with the single layout branch
selected by the `layout` discriminant. -/
theorem C7_render_dispatch_precedence (p : Props) (s : ComponentState)
    (page : PageContext) :
    (s.loading = true → render p s page = RenderOutput.loadingPlaceholder) ∧
    (s.loading = false →
      (s.error = true ∨
        (p.layout = Layout.badge ∧
          (s.averageRating = none ∨ s.totalReviewCount = none))) →
      render p s page = RenderOutput.errorPlaceholder) ∧
    (s.loading = false → s.error = false →
      (p.layout = Layout.badge →
        s.averageRating ≠ none ∧ s.totalReviewCount ≠ none) →
      ((p.layout = Layout.carousel →
        render p s page =
          RenderOutput.layoutOutput (structuredDataBlock p s page)
            (LayoutBranch.carouselView s.reviews)) ∧
       (p.layout = Layout.badge →
        render p s page =
          RenderOutput.layoutOutput (structuredDataBlock p s page)
            (LayoutBranch.badgeView s.averageRating s.totalReviewCount
              s.profileUrl)) ∧
       (p.layout = Layout.custom →
        render p s page =
          RenderOutput.layoutOutput (structuredDataBlock p s page)
            (LayoutBranch.customView s.reviews)))) := by
  refine ⟨fun hl => by simp [render, hl], fun hl herr => ?_,
    fun hl herr hguard => ?_⟩
  · rcases herr with h | ⟨h1, h2⟩
    · simp [render, hl, h]
    · rcases h2 with h | h <;> simp [render, hl, h1, h]
  · refine ⟨fun hlay => ?_, fun hlay => ?_, fun hlay => ?_⟩
    · simp [render, layoutBranch, hl, herr, hlay]
    · obtain ⟨h1, h2⟩ := hguard hlay
      simp [render, layoutBranch, hl, herr, hlay, h1, h2]
    · simp [render, layoutBranch, hl, herr, hlay]

/-- C7 witness: the loading short-circuit of the dispatcher at the concrete
configuration `pSup` in its initial state. -/
theorem C7_render_dispatch_precedence_witness :
    render pSup (initState pSup) pg = RenderOutput.loadingPlaceholder :=
  (C7_render_dispatch_precedence pSup (initState pSup) pg).1 rfl

/-- C8 (code evaluation at the failing input): on the list
`[rNamed, rAnon]`, the structured-data review list keeps exactly the review
whose reviewer is marked anonymous and drops the named one — the filter
`(r) => !!r.reviewer.isAnonymous` selects anonymous reviewers, the opposite of
the claimed non-anonymous filter. -/
theorem C8_filter_keeps_anonymous_reviews :
    rNamed.reviewer.isAnonymous = false ∧
    rAnon.reviewer.isAnonymous = true ∧
    structuredDataReviews [rNamed, rAnon] = [rAnon] := by
  decide

/-- C9 (code evaluation at the failing input): re-committing the unchanged id
`"A"` issues no new fetch (the dependency array is unchanged) and a change to
`"B"` issues exactly one new fetch — but when the still-in-flight response for
`"A"` (`dStale`, at in-flight index 0) is then delivered, its continuation has
no staleness guard and overwrites the instance's data even though the newer
request for `"B"` has already been issued. -/
theorem C9_stale_response_applied :
    (commit (mount pRem) pRem).fetchCount = 1 ∧
    (commit (mount pRem) pRem).inflight = ["A"] ∧
    (commit (mount pRem) pRemB).fetchCount = 2 ∧
    (commit (mount pRem) pRemB).inflight = ["A", "B"] ∧
    (deliver (commit (mount pRem) pRemB) 0
        (FetchOutcome.resolved dStale)).comp.reviews = dStale.reviews ∧
    (deliver (commit (mount pRem) pRemB) 0
        (FetchOutcome.resolved dStale)).comp.averageRating =
      dStale.averageRating :=
  ⟨rfl, rfl, rfl, rfl, rfl, rfl⟩

/-- C10: for every remote-mode configuration whose delivered outcome is a
failure (rejection or `success: false`), the resulting state is exactly the
initial configuration-derived state with only `error` set and `loading`
cleared: the review list is still `props.reviews ?? []` and the three
aggregates are still their configuration-supplied values or null. -/
theorem C10_failure_preserves_initial_data (p : Props) (fid : String)
    (o : FetchOutcome) (hfid : p.featurableId = some fid) (hne : fid ≠ "")
    (hfail : o = FetchOutcome.rejected ∨
      ∃ d, o = FetchOutcome.resolved d ∧ d.success = false) :
    (deliver (mount p) 0 o).comp =
      { reviews := p.reviews.getD []
        loading := false
        error := true
        profileUrl := if p.layout = Layout.badge then p.profileUrl else none
        totalReviewCount := p.totalReviewCount
        averageRating := p.averageRating } := by
  rcases hfail with h | ⟨d, hd, hds⟩
  · subst h
    simp [mount, commit, runEffectStep, initState, deliver, applyFetchOutcome,
      hfid, hne]
  · subst hd
    simp [mount, commit, runEffectStep, initState, deliver, applyFetchOutcome,
      hfid, hne, hds]

/-- C10 witness: the theorem instantiated at the badge configuration
`pRemAgg` (which supplies aggregates and a profile URL) with a rejected
fetch: the data cells keep their configuration-derived values. -/
theorem C10_failure_preserves_initial_data_witness :
    (deliver (mount pRemAgg) 0 FetchOutcome.rejected).comp =
      { reviews := pRemAgg.reviews.getD []
        loading := false
        error := true
        profileUrl :=
          if pRemAgg.layout = Layout.badge then pRemAgg.profileUrl else none
        totalReviewCount := pRemAgg.totalReviewCount
        averageRating := pRemAgg.averageRating } :=
  C10_failure_preserves_initial_data pRemAgg "C" FetchOutcome.rejected rfl
    (by decide) (Or.inl rfl)

end ReactGoogleReviews
